import Mathlib

/-!
Verification development for the joystick control-loop scripts of the
Shaheen repository.  The definitions below are a shallow embedding of the
control loop of src/newcode.py (with the channel mapping shared with
src/UIjoy.py): Python floats are modelled as rationals, Python int()
conversion as truncation toward zero, the per-iteration loop body as a
step function on an explicit state record, and the environment (joystick
reads, altitude reads, wall clock, rate gates) as a per-tick input record.
-/

/-- Loop-rate constant from newcode.py line 12: CTRL_LOOP_TIME = 1 / 100. -/
def CTRL_LOOP_TIME : ℚ := 1 / 100

/-- Debounce constant from newcode.py line 24: DEBOUNCE_TIME = 0.5. -/
def DEBOUNCE_TIME : ℚ := 1 / 2

/-- Filter constant from newcode.py line 25: ALT_FILTER_ALPHA = 0.01. -/
def ALT_FILTER_ALPHA : ℚ := 1 / 100

/-- Proportional gain from newcode.py line 20: Kp = 50. -/
def Kp : ℚ := 50

/-- Integral gain from newcode.py line 21: Ki = 10. -/
def Ki : ℚ := 10

/-- GPIO pin number from newcode.py line 28: PIN = 23. -/
def PIN : ℤ := 23

/-- Python int() applied to a float: truncation toward zero. -/
def pyInt (x : ℚ) : ℤ := if 0 ≤ x then ⌊x⌋ else ⌈x⌉

/-- newcode.py line 157 (same as UIjoy.py line 121):
scale_axis(val) = int(1500 + max(-200, min(200, int(val * 200)))). -/
def scale_axis (val : ℚ) : ℤ := 1500 + max (-200) (min 200 (pyInt (val * 200)))

/-- The pre-truncation value of the directional throttle mapping of
newcode.py lines 170-175: the input is clamped to [-1, 1], then mapped
piecewise linearly around 1600. -/
def throttlePre (val : ℚ) : ℚ :=
  let v := max (-1) (min 1 val)
  if 0 ≤ v then 1600 + v * (1800 - 1600) else 1600 + v * (1600 - 950)

/-- newcode.py lines 170-175: clamp the axis to [-1, 1] and map forward
inputs onto [1600, 1800] and reverse inputs onto [950, 1600), each branch
passed through Python int(). -/
def scale_throttle (val : ℚ) : ℤ :=
  let v := max (-1) (min 1 val)
  if 0 ≤ v then pyInt (1600 + v * (1800 - 1600)) else pyInt (1600 + v * (1600 - 950))

/-- The yaw-trim update performed by scale_yaw (newcode.py lines 158-168):
button 5 raises the trim by 10 up to 100, else button 4 lowers it by 10
down to -100, else the trim resets to 0. -/
def yawTrimStep (b4 b5 : Bool) (t : ℤ) : ℤ :=
  if b5 then min 100 (t + 10) else if b4 then max (-100) (t - 10) else 0

/-- One joystick snapshot: the axes the mapping reads (axis[1], axis[3],
axis[4]) and the button list.  Out-of-range button indices read as false,
matching the defensive len(button) > n checks in the source. -/
structure Snapshot where
  axis1 : ℚ
  axis3 : ℚ
  axis4 : ℚ
  button : List Bool
  deriving DecidableEq, Repr

/-- The six-channel command record CMDS of newcode.py lines 95-102. -/
structure Cmds where
  roll : ℤ
  pitch : ℤ
  throttle : ℤ
  yaw : ℤ
  aux1 : ℤ
  aux2 : ℤ
  deriving DecidableEq, Repr

/-- Initial CMDS values (newcode.py lines 95-102). -/
def initCmds : Cmds :=
  { roll := 1500, pitch := 1500, throttle := 900, yaw := 1500, aux1 := 1000, aux2 := 1000 }

/-- The four channels produced by the axis mapping of one tick
(raw_throttle, raw_roll, raw_pitch, raw_yaw of newcode.py lines 177-180). -/
structure RawCmds where
  throttle : ℤ
  roll : ℤ
  pitch : ℤ
  yaw : ℤ
  deriving DecidableEq, Repr

/-- The channel mapping of one tick (newcode.py lines 157-180): scales the
axes, updates the yaw trim as scale_yaw does, and returns both the mapped
channels and the updated trim.  In the source the trim lives in the global
yaw_trim, mutated by scale_yaw; here that mutation is made explicit. -/
def mapChannels (snap : Snapshot) (t : ℤ) : RawCmds × ℤ :=
  let t2 := yawTrimStep (snap.button.getD 4 false) (snap.button.getD 5 false) t
  ({ throttle := scale_throttle (-snap.axis1),
     roll := scale_axis snap.axis3,
     pitch := scale_axis (-snap.axis4),
     yaw := 1500 + t2 }, t2)

/-- The mutable state of the control loop: the CMDS record plus the module
globals of newcode.py (alt_hold, alt_setpoint, alt, eh, ei,
last_alt_toggle_time, filtered_alt, yaw_trim, state23). -/
structure LoopState where
  cmds : Cmds
  alt_hold : Bool
  alt_setpoint : ℚ
  alt : ℚ
  eh : ℚ
  ei : ℚ
  last_alt_toggle_time : ℚ
  filtered_alt : ℚ
  yaw_trim : ℤ
  state23 : Bool
  deriving DecidableEq, Repr

/-- Initial values of the module globals (newcode.py lines 16-29). -/
def initState : LoopState :=
  { cmds := initCmds, alt_hold := false, alt_setpoint := 0, alt := 0, eh := 0, ei := 0,
    last_alt_toggle_time := 0, filtered_alt := 0, yaw_trim := 0, state23 := false }

/-- Environment data consumed by one iteration of the while loop:
whether update() succeeded, the joystick snapshot, the altitude returned
by fast_read_altitude in the controller branch (line 185) and in the
toggle branch (line 223), the wall-clock value read at line 220, and
whether the fast-rate send gate at line 230 is open this iteration. -/
structure TickInput where
  deviceOk : Bool
  snap : Snapshot
  altRead1 : ℚ
  altRead2 : ℚ
  now : ℚ
  ctrlDue : Bool
  deriving DecidableEq, Repr

/-- The debounce check of newcode.py lines 220-222: fire only when more
than DEBOUNCE_TIME has elapsed since the last firing, recording the new
timestamp on firing. -/
def debounceStep (last now : ℚ) : Bool × ℚ :=
  if now - last > DEBOUNCE_TIME then (true, now) else (false, last)

/-- The axis-mapping and altitude-hold portion of one iteration
(newcode.py lines 157-197): map the axes, then either take the raw
throttle (hold disabled) or run the PI update (hold enabled, lines
184-191), and write the four mapped channels into CMDS. -/
def tickMapped (s : LoopState) (i : TickInput) : LoopState :=
  let rc := (mapChannels i.snap s.yaw_trim).1
  let t2 := (mapChannels i.snap s.yaw_trim).2
  if s.alt_hold then
    let f := ALT_FILTER_ALPHA * i.altRead1 + (1 - ALT_FILTER_ALPHA) * s.filtered_alt
    let e := s.alt_setpoint - f
    let ei2 := s.ei + e * CTRL_LOOP_TIME
    let thr := max 900 (min 1600 (pyInt (1570 + Kp * e + Ki * ei2)))
    let c := { s.cmds with roll := rc.roll, pitch := rc.pitch, yaw := rc.yaw, throttle := thr }
    { s with cmds := c, yaw_trim := t2, alt := i.altRead1, filtered_alt := f, eh := e, ei := ei2 }
  else
    let c := { s.cmds with roll := rc.roll, pitch := rc.pitch, yaw := rc.yaw, throttle := rc.throttle }
    { s with cmds := c, yaw_trim := t2 }

/-- The button dispatch chain below the reboot branch (newcode.py lines
204-228): arm, disarm, GPIO toggle, failsafe, debounced altitude-hold
toggle, in that elif order. -/
def dispatch (s : LoopState) (i : TickInput) : LoopState :=
  if i.snap.button.getD 0 false then { s with cmds := { s.cmds with aux1 := 1800 } }
  else if i.snap.button.getD 1 false then { s with cmds := { s.cmds with aux1 := 1000 } }
  else if i.snap.button.getD 3 false then { s with state23 := !s.state23 }
  else if i.snap.button.getD 2 false then { s with cmds := { s.cmds with aux2 := 1800 } }
  else if i.snap.button.getD 7 false then
    if (debounceStep s.last_alt_toggle_time i.now).1 then
      { s with last_alt_toggle_time := (debounceStep s.last_alt_toggle_time i.now).2,
               alt_setpoint := i.altRead2,
               filtered_alt := i.altRead2, ei := 0, alt_hold := !s.alt_hold }
    else s
  else s

/-- Result of one loop iteration: the updated state, the channel frame
sent this iteration by send_RAW_RC (if any), and whether the loop
terminated (reboot break at line 203). -/
structure TickResult where
  state : LoopState
  sent : Option (List ℤ)
  terminated : Bool
  deriving DecidableEq, Repr

/-- One iteration of the while loop of joy_controller (newcode.py lines
145-288).  When update() raises, the except branch (lines 152-155) sets
aux2 to 1800 and continues, skipping the rest of the body including the
send.  Otherwise the axes are mapped, the altitude-hold branch runs, the
button chain dispatches (reboot first, breaking before any send), and the
frame [roll, pitch, throttle, yaw, aux1, aux2] is sent when the fast-rate
gate is open. -/
def loopStep (s : LoopState) (i : TickInput) : TickResult :=
  if i.deviceOk = false then
    { state := { s with cmds := { s.cmds with aux2 := 1800 } }, sent := none, terminated := false }
  else if i.snap.button.getD 9 false then
    { state := tickMapped s i, sent := none, terminated := true }
  else
    let s2 := dispatch (tickMapped s i) i
    { state := s2,
      sent := if i.ctrlDue then
        some [s2.cmds.roll, s2.cmds.pitch, s2.cmds.throttle, s2.cmds.yaw, s2.cmds.aux1, s2.cmds.aux2]
      else none,
      terminated := false }

/-- Run the loop over a list of tick inputs, stopping early when an
iteration terminates the loop. -/
def runLoop (s : LoopState) : List TickInput → List TickResult
  | [] => []
  | i :: is =>
    let r := loopStep s i
    if r.terminated then [r] else r :: runLoop r.state is

/-- The debounce firing flags for a sequence of press timestamps, each
press processed by the debounce check of newcode.py lines 220-222. -/
def debounceRun (last : ℚ) : List ℚ → List Bool
  | [] => []
  | t :: ts => (debounceStep last t).1 :: debounceRun (debounceStep last t).2 ts

/-- The debounce firing flags paired with the press timestamps. -/
def debounceMarks (last : ℚ) : List ℚ → List (Bool × ℚ)
  | [] => []
  | t :: ts => ((debounceStep last t).1, t) :: debounceMarks (debounceStep last t).2 ts

/-- The four outcomes of the battery-voltage classification. -/
inductive VoltBand where
  | ultraLow : VoltBand
  | lowWarn : VoltBand
  | normal : VoltBand
  | tooHigh : VoltBand
  deriving DecidableEq, Repr

/-- The voltage classification of newcode.py lines 246-251: the chained
comparison min < v <= warn selects the low-battery warning, else v <= min
the critical message, else v >= max the over-voltage message, else the
empty (normal) message. -/
def voltBand (minV warnV maxV v : ℚ) : VoltBand :=
  if minV < v ∧ v ≤ warnV then VoltBand.lowWarn
  else if v ≤ minV then VoltBand.ultraLow
  else if maxV ≤ v then VoltBand.tooHigh
  else VoltBand.normal

/-- Effects that can occur while leaving joy_controller. -/
inductive CleanupAction where
  | displayDisconnectMsg : CleanupAction
  | gpioOutput : ℤ → Bool → CleanupAction
  | gpioRelease : CleanupAction
  | sendFrame : List ℤ → CleanupAction
  | releaseLink : CleanupAction
  deriving DecidableEq, Repr

/-- The ways the loop can be left (reboot break, or a propagating error). -/
inductive ExitReason where
  | rebootRequested : ExitReason
  | errorPropagated : ExitReason
  deriving DecidableEq, Repr

/-- The body of the finally block of joy_controller (newcode.py lines
290-294): write the disconnect message, force the GPIO pin low, release
the GPIO resources. -/
def finallyActions : List CleanupAction :=
  [CleanupAction.displayDisconnectMsg, CleanupAction.gpioOutput PIN false,
   CleanupAction.gpioRelease]

/-- Everything that runs on the way out of joy_controller, for either
exit reason: the with-statement releases the serial link, then the
finally block runs.  Both paths execute the same actions. -/
def exitActions (_ : ExitReason) : List CleanupAction :=
  CleanupAction.releaseLink :: finallyActions

/-- Whether a cleanup action transmits a channel frame. -/
def isSendFrame : CleanupAction → Bool
  | CleanupAction.sendFrame _ => true
  | _ => false

/-! ### Helper lemmas -/

lemma pyInt_mono {x y : ℚ} (h : x ≤ y) : pyInt x ≤ pyInt y := by
  unfold pyInt
  by_cases hx : 0 ≤ x
  · rw [if_pos hx, if_pos (le_trans hx h)]
    exact Int.floor_mono h
  · rw [if_neg hx]
    by_cases hy : 0 ≤ y
    · rw [if_pos hy]
      have h1 : ⌈x⌉ ≤ 0 := Int.ceil_le.mpr (by exact_mod_cast le_of_not_le hx)
      have h2 : (0 : ℤ) ≤ ⌊y⌋ := Int.le_floor.mpr (by exact_mod_cast hy)
      omega
    · rw [if_neg hy]
      exact Int.ceil_mono h

lemma clamp_abs_le (v : ℚ) : |max (-1) (min 1 v)| ≤ |v| := by
  have hv : (0 : ℚ) ≤ |v| := abs_nonneg v
  apply abs_le.mpr
  constructor
  · have h2 : -|v| ≤ min 1 v := le_min (by linarith) (neg_abs_le v)
    exact le_trans h2 (le_max_right _ _)
  · exact max_le (by linarith) (le_trans (min_le_right 1 v) (le_abs_self v))

lemma throttlePre_zero : throttlePre 0 = 1600 := by
  norm_num [throttlePre]

/-! ### Claims about the channel mappings -/

/-- C7: for every axis input a in [-1, 1], the roll mapping scale_axis is
monotone non-decreasing on [-1, 1] and its value lies in [1300, 1700]. -/
theorem claim_C7 (a : ℚ) (ha1 : -1 ≤ a) (ha2 : a ≤ 1) :
    (∀ b : ℚ, a ≤ b → b ≤ 1 → scale_axis a ≤ scale_axis b) ∧
    1300 ≤ scale_axis a ∧ scale_axis a ≤ 1700 := by
  refine ⟨?_, ?_, ?_⟩
  · intro b hab _
    unfold scale_axis
    have h1 : pyInt (a * 200) ≤ pyInt (b * 200) :=
      pyInt_mono (mul_le_mul_of_nonneg_right hab (by norm_num))
    have h2 := max_le_max (le_refl (-200 : ℤ)) (min_le_min (le_refl (200 : ℤ)) h1)
    omega
  · unfold scale_axis
    have h3 := le_max_left (-200 : ℤ) (min 200 (pyInt (a * 200)))
    omega
  · unfold scale_axis
    have h4 : max (-200 : ℤ) (min 200 (pyInt (a * 200))) ≤ 200 :=
      max_le (by norm_num) (min_le_left _ _)
    omega

/-- C7 witness: the theorem instantiated with a = 0 and b = 1/2. -/
theorem claim_C7_witness :
    (-1 ≤ (0 : ℚ)) ∧ ((0 : ℚ) ≤ 1) ∧ ((0 : ℚ) ≤ 1/2) ∧ ((1/2 : ℚ) ≤ 1) ∧
    scale_axis 0 ≤ scale_axis (1/2) ∧ 1300 ≤ scale_axis 0 ∧ scale_axis 0 ≤ 1700 := by
  have h := claim_C7 0 (by norm_num) (by norm_num)
  exact ⟨by norm_num, by norm_num, by norm_num, by norm_num,
         h.1 (1/2) (by norm_num) (by norm_num), h.2.1, h.2.2⟩

/-- C8: the directional throttle mapping sends 0 to 1600, 1 to 1800 and -1
to 950; its pre-truncation map is Lipschitz at 0 (hence continuous there);
the mapping is the truncation of that piecewise-linear map (the asymmetric
split: slope 200 toward 1800 for positive inputs, slope 650 toward 950 for
negative ones); and every output lies in [950, 1800]. -/
theorem claim_C8 :
    scale_throttle 0 = 1600 ∧ scale_throttle 1 = 1800 ∧ scale_throttle (-1) = 950 ∧
    (∀ v : ℚ, |throttlePre v - throttlePre 0| ≤ 650 * |v|) ∧
    (∀ v : ℚ, scale_throttle v = pyInt (throttlePre v)) ∧
    (∀ v : ℚ, 950 ≤ scale_throttle v ∧ scale_throttle v ≤ 1800) := by
  refine ⟨by with_unfolding_all decide, by with_unfolding_all decide,
          by with_unfolding_all decide, ?_, ?_, ?_⟩
  · intro v
    rw [throttlePre_zero]
    have hcv : |max (-1) (min 1 v)| ≤ |v| := clamp_abs_le v
    unfold throttlePre
    by_cases h : (0 : ℚ) ≤ max (-1) (min 1 v)
    · rw [if_pos h]
      have e1 : (1600 : ℚ) + max (-1) (min 1 v) * (1800 - 1600) - 1600 =
          200 * max (-1) (min 1 v) := by ring
      rw [e1, abs_mul]
      have h200 : |(200 : ℚ)| = 200 := by norm_num
      rw [h200]
      nlinarith [abs_nonneg (max (-1) (min 1 v)), abs_nonneg v]
    · rw [if_neg h]
      have e1 : (1600 : ℚ) + max (-1) (min 1 v) * (1600 - 950) - 1600 =
          650 * max (-1) (min 1 v) := by ring
      rw [e1, abs_mul]
      have h650 : |(650 : ℚ)| = 650 := by norm_num
      rw [h650]
      nlinarith [abs_nonneg (max (-1) (min 1 v))]
  · intro v
    unfold scale_throttle throttlePre
    by_cases h : (0 : ℚ) ≤ max (-1) (min 1 v)
    · simp only [if_pos h]
    · simp only [if_neg h]
  · intro v
    unfold scale_throttle
    have hc1 : (-1 : ℚ) ≤ max (-1) (min 1 v) := le_max_left _ _
    have hc2 : max (-1 : ℚ) (min 1 v) ≤ 1 := max_le (by norm_num) (min_le_left _ _)
    by_cases h : (0 : ℚ) ≤ max (-1) (min 1 v)
    · simp only [if_pos h]
      unfold pyInt
      rw [if_pos (by nlinarith : (0 : ℚ) ≤ 1600 + max (-1) (min 1 v) * (1800 - 1600))]
      constructor
      · exact Int.le_floor.mpr (by push_cast; nlinarith)
      · have h5 : ⌊(1600 : ℚ) + max (-1) (min 1 v) * (1800 - 1600)⌋ ≤ ⌊(1800 : ℚ)⌋ :=
          Int.floor_mono (by nlinarith)
        have h6 : ⌊(1800 : ℚ)⌋ = 1800 := by
          rw [show (1800 : ℚ) = ((1800 : ℤ) : ℚ) by norm_num, Int.floor_intCast]
        omega
    · simp only [if_neg h]
      unfold pyInt
      rw [if_pos (by nlinarith : (0 : ℚ) ≤ 1600 + max (-1) (min 1 v) * (1600 - 950))]
      constructor
      · exact Int.le_floor.mpr (by push_cast; nlinarith)
      · have h5 : ⌊(1600 : ℚ) + max (-1) (min 1 v) * (1600 - 950)⌋ ≤ ⌊(1800 : ℚ)⌋ :=
          Int.floor_mono (by nlinarith)
        have h6 : ⌊(1800 : ℚ)⌋ = 1800 := by
          rw [show (1800 : ℚ) = ((1800 : ℤ) : ℚ) by norm_num, Int.floor_intCast]
        omega

/-! ### Voltage classification -/

/-- C9: the voltage classification bands, for any thresholds min < warn < max,
and the four concrete readings with min = 10.5, warn = 10.8, max = 12.6. -/
theorem claim_C9 :
    (∀ minV warnV maxV v : ℚ, minV < warnV → warnV < maxV →
      ((v ≤ minV → voltBand minV warnV maxV v = VoltBand.ultraLow) ∧
       (minV < v → v ≤ warnV → voltBand minV warnV maxV v = VoltBand.lowWarn) ∧
       (warnV < v → v < maxV → voltBand minV warnV maxV v = VoltBand.normal) ∧
       (maxV ≤ v → voltBand minV warnV maxV v = VoltBand.tooHigh))) ∧
    voltBand (21/2) (54/5) (63/5) (52/5) = VoltBand.ultraLow ∧
    voltBand (21/2) (54/5) (63/5) (53/5) = VoltBand.lowWarn ∧
    voltBand (21/2) (54/5) (63/5) (23/2) = VoltBand.normal ∧
    voltBand (21/2) (54/5) (63/5) (127/10) = VoltBand.tooHigh := by
  refine ⟨?_, by with_unfolding_all decide, by with_unfolding_all decide,
          by with_unfolding_all decide, by with_unfolding_all decide⟩
  intro minV warnV maxV v h1 h2
  unfold voltBand
  refine ⟨?_, ?_, ?_, ?_⟩
  · intro hv
    rw [if_neg (by rintro ⟨ha, _⟩; linarith), if_pos hv]
  · intro ha hb
    rw [if_pos ⟨ha, hb⟩]
  · intro ha hb
    rw [if_neg (by rintro ⟨_, hc⟩; linarith), if_neg (by linarith), if_neg (by linarith)]
  · intro hv
    rw [if_neg (by rintro ⟨_, hc⟩; linarith), if_neg (by linarith), if_pos (by linarith)]

/-- C9 witness: the general band theorem instantiated at the concrete
thresholds and the over-voltage reading 12.7. -/
theorem claim_C9_witness :
    ((21/2 : ℚ) < 54/5) ∧ ((54/5 : ℚ) < 63/5) ∧ ((63/5 : ℚ) ≤ 127/10) ∧
    voltBand (21/2) (54/5) (63/5) (127/10) = VoltBand.tooHigh := by
  refine ⟨by norm_num, by norm_num, by norm_num, ?_⟩
  exact (claim_C9.1 (21/2) (54/5) (63/5) (127/10) (by norm_num) (by norm_num)).2.2.2
    (by norm_num)

/-! ### Debounce -/

/-- Two processed presses both fire only if they are more than the debounce
interval apart.  This relation is stated on (fired, timestamp) pairs. -/
def fireGap (p q : Bool × ℚ) : Prop :=
  p.1 = true → q.1 = true → q.2 - p.2 > DEBOUNCE_TIME

lemma debounce_pos : (0 : ℚ) < DEBOUNCE_TIME := by norm_num [DEBOUNCE_TIME]

lemma debounceMarks_fire_gt (ts : List ℚ) : ∀ last : ℚ, List.Sorted (· ≤ ·) ts →
    (∀ t ∈ ts, last ≤ t) → ∀ p ∈ debounceMarks last ts, p.1 = true →
    p.2 - last > DEBOUNCE_TIME := by
  induction ts with
  | nil => intro last _ _ p hp; simp [debounceMarks] at hp
  | cons t ts ih =>
    intro last hs hle p hp hp1
    rw [List.sorted_cons] at hs
    simp only [debounceMarks] at hp
    by_cases h : t - last > DEBOUNCE_TIME
    · rw [show debounceStep last t = (true, t) from by simp [debounceStep, h]] at hp
      rcases List.mem_cons.mp hp with h1 | h1
      · rw [h1]; exact h
      · have h2 := ih t hs.2 (fun u hu => hs.1 u hu) p h1 hp1
        simp only at h2
        linarith [debounce_pos]
    · rw [show debounceStep last t = (false, last) from by simp [debounceStep, h]] at hp
      rcases List.mem_cons.mp hp with h1 | h1
      · rw [h1] at hp1; simp at hp1
      · exact ih last hs.2 (fun u hu => hle u (List.mem_cons_of_mem t hu)) p h1 hp1

lemma debounceMarks_pairwise (ts : List ℚ) : ∀ last : ℚ, List.Sorted (· ≤ ·) ts →
    List.Pairwise fireGap (debounceMarks last ts) := by
  induction ts with
  | nil => intro last _; simp [debounceMarks]
  | cons t ts ih =>
    intro last hs
    rw [List.sorted_cons] at hs
    simp only [debounceMarks]
    refine List.Pairwise.cons ?_ (ih _ hs.2)
    intro q hq h1 h2
    by_cases h : t - last > DEBOUNCE_TIME
    · rw [show debounceStep last t = (true, t) from by simp [debounceStep, h]] at hq
      exact debounceMarks_fire_gt ts t hs.2 (fun u hu => hs.1 u hu) q hq h2
    · rw [show debounceStep last t = (false, last) from by simp [debounceStep, h]] at h1
      simp at h1

/-- C10: the debounced toggle never fires twice within the debounce
interval: over any non-decreasing sequence of press times, any two presses
that both fire are more than DEBOUNCE_TIME (= 0.5 s) apart — so two presses
less than 0.5 s apart change the altitude-hold state at most once.  The two
concrete runs: presses at 1 s and 1.1 s give exactly one firing, presses at
1 s and 1.6 s give two firings. -/
theorem claim_C10 :
    (∀ (last : ℚ) (ts : List ℚ), List.Sorted (· ≤ ·) ts →
      List.Pairwise fireGap (debounceMarks last ts)) ∧
    debounceRun 0 [1, 11/10] = [true, false] ∧
    debounceRun 0 [1, 8/5] = [true, true] :=
  ⟨fun last ts h => debounceMarks_pairwise ts last h,
   by with_unfolding_all decide, by with_unfolding_all decide⟩

/-- C10 witness: the pairwise-gap theorem instantiated on the concrete
press sequence at 1 s and 1.6 s. -/
theorem claim_C10_witness :
    List.Sorted (· ≤ ·) [(1 : ℚ), 8/5] ∧
    List.Pairwise fireGap (debounceMarks 0 [(1 : ℚ), 8/5]) := by
  have hs : List.Sorted (· ≤ ·) [(1 : ℚ), 8/5] := by
    rw [List.sorted_cons]
    refine ⟨?_, List.sorted_singleton _⟩
    intro b hb
    rw [List.mem_singleton] at hb
    rw [hb]; norm_num
  exact ⟨hs, claim_C10.1 0 [(1 : ℚ), 8/5] hs⟩

/-! ### Loop-state lemmas -/

lemma tickMapped_alt_hold (s : LoopState) (i : TickInput) :
    (tickMapped s i).alt_hold = s.alt_hold := by
  unfold tickMapped; split <;> rfl

lemma tickMapped_last (s : LoopState) (i : TickInput) :
    (tickMapped s i).last_alt_toggle_time = s.last_alt_toggle_time := by
  unfold tickMapped; split <;> rfl

lemma tickMapped_setpoint (s : LoopState) (i : TickInput) :
    (tickMapped s i).alt_setpoint = s.alt_setpoint := by
  unfold tickMapped; split <;> rfl

lemma tickMapped_aux1 (s : LoopState) (i : TickInput) :
    (tickMapped s i).cmds.aux1 = s.cmds.aux1 := by
  unfold tickMapped; split <;> rfl

lemma tickMapped_aux2 (s : LoopState) (i : TickInput) :
    (tickMapped s i).cmds.aux2 = s.cmds.aux2 := by
  unfold tickMapped; split <;> rfl

lemma tickMapped_state23 (s : LoopState) (i : TickInput) :
    (tickMapped s i).state23 = s.state23 := by
  unfold tickMapped; split <;> rfl

lemma tickMapped_hold_spec (s : LoopState) (i : TickInput) (h : s.alt_hold = true) :
    (tickMapped s i).filtered_alt =
      ALT_FILTER_ALPHA * i.altRead1 + (1 - ALT_FILTER_ALPHA) * s.filtered_alt ∧
    (tickMapped s i).eh = s.alt_setpoint - (tickMapped s i).filtered_alt ∧
    (tickMapped s i).ei = s.ei + (tickMapped s i).eh * CTRL_LOOP_TIME ∧
    (tickMapped s i).cmds.throttle =
      max 900 (min 1600 (pyInt (1570 + Kp * (tickMapped s i).eh +
        Ki * (tickMapped s i).ei))) := by
  unfold tickMapped
  rw [if_pos h]
  exact ⟨rfl, rfl, rfl, rfl⟩

lemma dispatch_aux2_1800 (s : LoopState) (i : TickInput) (h : s.cmds.aux2 = 1800) :
    (dispatch s i).cmds.aux2 = 1800 := by
  unfold dispatch
  split_ifs <;> simp [h]

lemma dispatch_no_toggle (s : LoopState) (i : TickInput)
    (h7 : i.snap.button.getD 7 false = false) :
    (dispatch s i).filtered_alt = s.filtered_alt ∧ (dispatch s i).eh = s.eh ∧
    (dispatch s i).ei = s.ei ∧ (dispatch s i).cmds.throttle = s.cmds.throttle := by
  unfold dispatch
  rw [h7]
  split_ifs <;> simp_all

/-! ### Device-loss behaviour and cleanup -/

/-- A device-lost tick input with neutral axes, no buttons, send gate open. -/
def lostTick : TickInput :=
  { deviceOk := false, snap := { axis1 := 0, axis3 := 0, axis4 := 0, button := [] },
    altRead1 := 0, altRead2 := 0, now := 0, ctrlDue := true }

/-- A device-ok tick input with neutral axes, no buttons, send gate open. -/
def okTick : TickInput :=
  { deviceOk := true, snap := { axis1 := 0, axis3 := 0, axis4 := 0, button := [] },
    altRead1 := 0, altRead2 := 0, now := 0, ctrlDue := true }

/-- C1 counterexample: running the loop from the initial state over the
trace ok, lost, lost, lost, ok: no frame is sent on the three device-lost
ticks (the except branch continues past the send), and after the device
returns aux2 is still 1800, not its prior value 1000. -/
theorem claim_C1_counterexample :
    (runLoop initState [okTick, lostTick, lostTick, lostTick, okTick]).map
      (fun r => (r.sent.isSome, r.state.cmds.aux2)) =
    [(true, 1000), (false, 1800), (false, 1800), (false, 1800), (true, 1800)] := by
  with_unfolding_all decide

/-- C1 (amended): on a device-lost tick the loop does not terminate, sets
aux2 to the failsafe value 1800 and sends no frame; on a device-ok tick
with the send gate open and no reboot button a frame is sent and the loop
continues; and once aux2 is 1800 it stays 1800 on every subsequent tick —
it never reverts to its prior value. -/
theorem claim_C1 :
    (∀ (s : LoopState) (i : TickInput), i.deviceOk = false →
      (loopStep s i).terminated = false ∧ (loopStep s i).state.cmds.aux2 = 1800 ∧
      (loopStep s i).sent = none) ∧
    (∀ (s : LoopState) (i : TickInput), i.deviceOk = true →
      i.snap.button.getD 9 false = false → i.ctrlDue = true →
      (loopStep s i).terminated = false ∧ (loopStep s i).sent.isSome = true) ∧
    (∀ (s : LoopState) (i : TickInput), s.cmds.aux2 = 1800 →
      (loopStep s i).state.cmds.aux2 = 1800) := by
  refine ⟨?_, ?_, ?_⟩
  · intro s i h
    simp [loopStep, h]
  · intro s i h h9 hc
    unfold loopStep
    rw [h, h9, hc]
    simp
  · intro s i h
    unfold loopStep
    by_cases hd : i.deviceOk = false
    · rw [if_pos hd]
    · rw [if_neg hd]
      by_cases h9 : i.snap.button.getD 9 false = true
      · rw [if_pos h9]
        show (tickMapped s i).cmds.aux2 = 1800
        rw [tickMapped_aux2]; exact h
      · rw [if_neg h9]
        show (dispatch (tickMapped s i) i).cmds.aux2 = 1800
        exact dispatch_aux2_1800 _ i (by rw [tickMapped_aux2]; exact h)

/-- C1 witness: the amended theorem instantiated: the first conjunct on a
concrete device-lost tick, the second on a concrete device-ok tick. -/
theorem claim_C1_witness :
    (lostTick.deviceOk = false ∧
     (loopStep initState lostTick).terminated = false ∧
     (loopStep initState lostTick).state.cmds.aux2 = 1800 ∧
     (loopStep initState lostTick).sent = none) ∧
    (okTick.deviceOk = true ∧ okTick.snap.button.getD 9 false = false ∧
     okTick.ctrlDue = true ∧
     (loopStep initState okTick).terminated = false ∧
     (loopStep initState okTick).sent.isSome = true) := by
  refine ⟨⟨rfl, claim_C1.1 initState lostTick rfl⟩, ⟨rfl, rfl, rfl, ?_⟩⟩
  exact claim_C1.2.1 initState okTick rfl rfl rfl

/-- C2 counterexample: on both exit paths (reboot break and propagating
error) the cleanup actions contain no channel-frame send: the claimed
final neutral/failsafe frame does not exist. -/
theorem claim_C2_counterexample :
    (exitActions ExitReason.rebootRequested).any isSendFrame = false ∧
    (exitActions ExitReason.errorPropagated).any isSendFrame = false := by
  exact ⟨rfl, rfl⟩

/-- C2 (amended): on every exit path the link is released (by leaving the
with-block) and the GPIO pin is forced low before the GPIO resources are
released (the finally block, newcode.py lines 290-294); but no final
neutral/failsafe channel frame is sent during cleanup. -/
theorem claim_C2 (r : ExitReason) :
    CleanupAction.releaseLink ∈ exitActions r ∧
    CleanupAction.gpioOutput PIN false ∈ exitActions r ∧
    CleanupAction.gpioRelease ∈ exitActions r ∧
    (exitActions r).any isSendFrame = false := by
  cases r <;> refine ⟨?_, ?_, ?_, rfl⟩ <;> simp [exitActions, finallyActions]
/-! ### Button dispatch priority and the altitude-hold toggle -/

lemma loopStep_ok (s : LoopState) (i : TickInput) (hdev : i.deviceOk = true)
    (h9 : i.snap.button.getD 9 false = false) :
    loopStep s i =
      { state := dispatch (tickMapped s i) i,
        sent := if i.ctrlDue then
          some [(dispatch (tickMapped s i) i).cmds.roll,
                (dispatch (tickMapped s i) i).cmds.pitch,
                (dispatch (tickMapped s i) i).cmds.throttle,
                (dispatch (tickMapped s i) i).cmds.yaw,
                (dispatch (tickMapped s i) i).cmds.aux1,
                (dispatch (tickMapped s i) i).cmds.aux2]
          else none,
        terminated := false } := by
  unfold loopStep
  rw [if_neg (fun hc => by rw [hdev] at hc; exact Bool.noConfusion hc),
      if_neg (fun hc => by rw [h9] at hc; exact Bool.noConfusion hc)]

lemma dispatch_failsafe (s : LoopState) (i : TickInput)
    (h0 : i.snap.button.getD 0 false = false)
    (h1 : i.snap.button.getD 1 false = false)
    (h3 : i.snap.button.getD 3 false = false)
    (h2 : i.snap.button.getD 2 false = true) :
    dispatch s i = { s with cmds := { s.cmds with aux2 := 1800 } } := by
  unfold dispatch
  rw [if_neg (fun hc => by rw [h0] at hc; exact Bool.noConfusion hc),
      if_neg (fun hc => by rw [h1] at hc; exact Bool.noConfusion hc),
      if_neg (fun hc => by rw [h3] at hc; exact Bool.noConfusion hc), if_pos h2]

lemma dispatch_toggle_fire (s : LoopState) (i : TickInput)
    (h0 : i.snap.button.getD 0 false = false)
    (h1 : i.snap.button.getD 1 false = false)
    (h3 : i.snap.button.getD 3 false = false)
    (h2 : i.snap.button.getD 2 false = false)
    (h7 : i.snap.button.getD 7 false = true)
    (hdb : i.now - s.last_alt_toggle_time > DEBOUNCE_TIME) :
    dispatch s i =
      { s with
        last_alt_toggle_time := i.now
        alt_setpoint := i.altRead2
        filtered_alt := i.altRead2
        ei := 0
        alt_hold := !s.alt_hold } := by
  unfold dispatch
  rw [if_neg (fun hc => by rw [h0] at hc; exact Bool.noConfusion hc),
      if_neg (fun hc => by rw [h1] at hc; exact Bool.noConfusion hc),
      if_neg (fun hc => by rw [h3] at hc; exact Bool.noConfusion hc),
      if_neg (fun hc => by rw [h2] at hc; exact Bool.noConfusion hc), if_pos h7]
  have hfire : debounceStep s.last_alt_toggle_time i.now = (true, i.now) := by
    simp [debounceStep, hdb]
  rw [hfire]
  rfl

/-- C3 counterexample: with the arm button (0) and the failsafe button (2)
pressed in the same tick, the arm branch wins: aux1 becomes 1800 but aux2
stays at its prior value 1000 — the failsafe button did not override. -/
theorem claim_C3_counterexample :
    (loopStep initState
      { deviceOk := true,
        snap := { axis1 := 0, axis3 := 0, axis4 := 0, button := [true, false, true] },
        altRead1 := 0, altRead2 := 0, now := 0, ctrlDue := true }).state.cmds.aux2 = 1000 ∧
    (loopStep initState
      { deviceOk := true,
        snap := { axis1 := 0, axis3 := 0, axis4 := 0, button := [true, false, true] },
        altRead1 := 0, altRead2 := 0, now := 0, ctrlDue := true }).state.cmds.aux1 = 1800 := by
  with_unfolding_all decide

/-- C3 (amended): the failsafe button (2) is fifth in the elif chain, after
reboot (9), arm (0), disarm (1) and the GPIO toggle (3).  When none of
those four is pressed and the failsafe button is, aux2 is set to 1800 and
the only lower-priority action, the altitude-hold toggle (7), is ignored:
alt_hold, the debounce timestamp, aux1 and the GPIO state are unchanged
and the loop continues. -/
theorem claim_C3 (s : LoopState) (i : TickInput)
    (hdev : i.deviceOk = true)
    (h9 : i.snap.button.getD 9 false = false)
    (h0 : i.snap.button.getD 0 false = false)
    (h1 : i.snap.button.getD 1 false = false)
    (h3 : i.snap.button.getD 3 false = false)
    (h2 : i.snap.button.getD 2 false = true) :
    (loopStep s i).state.cmds.aux2 = 1800 ∧
    (loopStep s i).state.cmds.aux1 = s.cmds.aux1 ∧
    (loopStep s i).state.alt_hold = s.alt_hold ∧
    (loopStep s i).state.last_alt_toggle_time = s.last_alt_toggle_time ∧
    (loopStep s i).state.state23 = s.state23 ∧
    (loopStep s i).terminated = false := by
  rw [loopStep_ok s i hdev h9, dispatch_failsafe (tickMapped s i) i h0 h1 h3 h2]
  exact ⟨rfl, tickMapped_aux1 s i, tickMapped_alt_hold s i, tickMapped_last s i,
         tickMapped_state23 s i, rfl⟩

/-- C3 witness: the amended theorem instantiated with only the failsafe
button pressed from the initial state. -/
theorem claim_C3_witness :
    (loopStep initState
      { deviceOk := true,
        snap := { axis1 := 0, axis3 := 0, axis4 := 0, button := [false, false, true] },
        altRead1 := 0, altRead2 := 0, now := 0, ctrlDue := true }).state.cmds.aux2 = 1800 ∧
    (loopStep initState
      { deviceOk := true,
        snap := { axis1 := 0, axis3 := 0, axis4 := 0, button := [false, false, true] },
        altRead1 := 0, altRead2 := 0, now := 0, ctrlDue := true }).terminated = false := by
  have h := claim_C3 initState
    { deviceOk := true,
      snap := { axis1 := 0, axis3 := 0, axis4 := 0, button := [false, false, true] },
      altRead1 := 0, altRead2 := 0, now := 0, ctrlDue := true }
    rfl rfl rfl rfl rfl rfl
  exact ⟨h.1, h.2.2.2.2.2⟩

/-- C4: when the altitude-hold toggle fires (toggle button 7 pressed, no
higher-priority button pressed, debounce interval elapsed) while hold is
disabled, hold becomes enabled and, in that same tick, the setpoint is set
to the altitude read at that instant, the filtered estimate is reset to
that same value, the integral accumulator to zero and the debounce
timestamp to the current time — for every prior filtered/integral value. -/
theorem claim_C4 (s : LoopState) (i : TickInput)
    (hdev : i.deviceOk = true)
    (h9 : i.snap.button.getD 9 false = false)
    (h0 : i.snap.button.getD 0 false = false)
    (h1 : i.snap.button.getD 1 false = false)
    (h3 : i.snap.button.getD 3 false = false)
    (h2 : i.snap.button.getD 2 false = false)
    (h7 : i.snap.button.getD 7 false = true)
    (hdb : i.now - s.last_alt_toggle_time > DEBOUNCE_TIME)
    (hoff : s.alt_hold = false) :
    (loopStep s i).state.alt_hold = true ∧
    (loopStep s i).state.alt_setpoint = i.altRead2 ∧
    (loopStep s i).state.filtered_alt = i.altRead2 ∧
    (loopStep s i).state.ei = 0 ∧
    (loopStep s i).state.last_alt_toggle_time = i.now := by
  have hdb2 : i.now - (tickMapped s i).last_alt_toggle_time > DEBOUNCE_TIME := by
    rw [tickMapped_last]; exact hdb
  rw [loopStep_ok s i hdev h9, dispatch_toggle_fire (tickMapped s i) i h0 h1 h3 h2 h7 hdb2]
  refine ⟨?_, rfl, rfl, rfl, rfl⟩
  show (!(tickMapped s i).alt_hold) = true
  rw [tickMapped_alt_hold, hoff]
  rfl

/-- C4 witness: the theorem instantiated from the initial state (hold off,
debounce timestamp 0) with the toggle pressed at time 1 and altitude 5. -/
theorem claim_C4_witness :
    ((1 : ℚ) - initState.last_alt_toggle_time > DEBOUNCE_TIME) ∧
    initState.alt_hold = false ∧
    (loopStep initState
      { deviceOk := true,
        snap := { axis1 := 0, axis3 := 0, axis4 := 0,
                  button := [false, false, false, false, false, false, false, true] },
        altRead1 := 0, altRead2 := 5, now := 1, ctrlDue := true }).state.alt_hold = true ∧
    (loopStep initState
      { deviceOk := true,
        snap := { axis1 := 0, axis3 := 0, axis4 := 0,
                  button := [false, false, false, false, false, false, false, true] },
        altRead1 := 0, altRead2 := 5, now := 1, ctrlDue := true }).state.alt_setpoint = 5 ∧
    (loopStep initState
      { deviceOk := true,
        snap := { axis1 := 0, axis3 := 0, axis4 := 0,
                  button := [false, false, false, false, false, false, false, true] },
        altRead1 := 0, altRead2 := 5, now := 1, ctrlDue := true }).state.filtered_alt = 5 ∧
    (loopStep initState
      { deviceOk := true,
        snap := { axis1 := 0, axis3 := 0, axis4 := 0,
                  button := [false, false, false, false, false, false, false, true] },
        altRead1 := 0, altRead2 := 5, now := 1, ctrlDue := true }).state.ei = 0 := by
  have hdb : (1 : ℚ) - initState.last_alt_toggle_time > DEBOUNCE_TIME := by
    show (1 : ℚ) - 0 > DEBOUNCE_TIME
    norm_num [DEBOUNCE_TIME]
  have h := claim_C4 initState
    { deviceOk := true,
      snap := { axis1 := 0, axis3 := 0, axis4 := 0,
                button := [false, false, false, false, false, false, false, true] },
      altRead1 := 0, altRead2 := 5, now := 1, ctrlDue := true }
    rfl rfl rfl rfl rfl rfl rfl hdb rfl
  exact ⟨hdb, rfl, h.1, h.2.1, h.2.2.1, h.2.2.2.1⟩

/-! ### The PI update while altitude hold is enabled -/

lemma loopStep_reboot (s : LoopState) (i : TickInput) (hdev : i.deviceOk = true)
    (h9 : i.snap.button.getD 9 false = true) :
    loopStep s i = { state := tickMapped s i, sent := none, terminated := true } := by
  unfold loopStep
  rw [if_neg (fun hc => by rw [hdev] at hc; exact Bool.noConfusion hc), if_pos h9]

/-- A state with altitude hold enabled and a small positive error, chosen
so that the PI command falls strictly between two integers. -/
def pidState1 : LoopState :=
  { cmds := initCmds, alt_hold := true, alt_setpoint := 13/1000, alt := 0, eh := 0, ei := 0,
    last_alt_toggle_time := 0, filtered_alt := 0, yaw_trim := 0, state23 := false }

/-- A neutral device-ok tick for the PI counterexample. -/
def pidTick1 : TickInput :=
  { deviceOk := true, snap := { axis1 := 0, axis3 := 0, axis4 := 0, button := [] },
    altRead1 := 0, altRead2 := 0, now := 0, ctrlDue := true }

/-- A state with altitude hold enabled and setpoint 1, about to receive a
debounced toggle press. -/
def toggleState2 : LoopState :=
  { cmds := initCmds, alt_hold := true, alt_setpoint := 1, alt := 0, eh := 0, ei := 0,
    last_alt_toggle_time := 0, filtered_alt := 0, yaw_trim := 0, state23 := false }

/-- A device-ok tick pressing the altitude-toggle button (7) at time 1. -/
def toggleTick2 : TickInput :=
  { deviceOk := true,
    snap := { axis1 := 0, axis3 := 0, axis4 := 0,
              button := [false, false, false, false, false, false, false, true] },
    altRead1 := 0, altRead2 := 0, now := 1, ctrlDue := true }

/-- C5 counterexample: (i) the code truncates the PI command with Python
int(), not round: at error 0.013 the sent throttle is 1570 while the
claimed round formula gives 1571; (ii) on a tick where the debounced
toggle fires, ei is reset to 0 rather than increased by e*0.01. -/
theorem claim_C5_counterexample :
    ((loopStep pidState1 pidTick1).state.cmds.throttle = 1570 ∧
     max 900 (min 1600 (round ((1570 : ℚ) + 50 * (loopStep pidState1 pidTick1).state.eh +
       10 * (loopStep pidState1 pidTick1).state.ei))) = 1571) ∧
    ((loopStep toggleState2 toggleTick2).state.ei ≠
      toggleState2.ei + (loopStep toggleState2 toggleTick2).state.eh * (1/100)) := by
  with_unfolding_all decide

/-- C5 (amended): while altitude hold is enabled, on every device-ok tick
on which the toggle button (7) is not pressed, the state updates exactly
as: filtered = 0.01*raw + 0.99*filtered; e = setpoint - filtered;
ei increases by e * 0.01 (the nominal fast-loop period, not measured
time); and the throttle equals clamp(900, 1600, trunc(1570 + 50e + 10ei))
with trunc the Python int() truncation toward zero (not round). -/
theorem claim_C5 (s : LoopState) (i : TickInput)
    (hdev : i.deviceOk = true)
    (hhold : s.alt_hold = true)
    (h7 : i.snap.button.getD 7 false = false) :
    (loopStep s i).state.filtered_alt = 1/100 * i.altRead1 + 99/100 * s.filtered_alt ∧
    (loopStep s i).state.eh = s.alt_setpoint - (loopStep s i).state.filtered_alt ∧
    (loopStep s i).state.ei = s.ei + (loopStep s i).state.eh * (1/100) ∧
    (loopStep s i).state.cmds.throttle =
      max 900 (min 1600 (pyInt (1570 + 50 * (loopStep s i).state.eh +
        10 * (loopStep s i).state.ei))) := by
  have hspec := tickMapped_hold_spec s i hhold
  have hstate : (loopStep s i).state.filtered_alt = (tickMapped s i).filtered_alt ∧
      (loopStep s i).state.eh = (tickMapped s i).eh ∧
      (loopStep s i).state.ei = (tickMapped s i).ei ∧
      (loopStep s i).state.cmds.throttle = (tickMapped s i).cmds.throttle := by
    by_cases h9 : i.snap.button.getD 9 false = true
    · rw [loopStep_reboot s i hdev h9]
      exact ⟨rfl, rfl, rfl, rfl⟩
    · have h9f : i.snap.button.getD 9 false = false := Bool.eq_false_iff.mpr h9
      rw [loopStep_ok s i hdev h9f]
      exact dispatch_no_toggle (tickMapped s i) i h7
  obtain ⟨e1, e2, e3, e4⟩ := hstate
  refine ⟨?_, ?_, ?_, ?_⟩
  · rw [e1, hspec.1]
    norm_num [ALT_FILTER_ALPHA]
  · rw [e2, e1]
    exact hspec.2.1
  · rw [e3, e2, hspec.2.2.1]
    norm_num [CTRL_LOOP_TIME]
  · rw [e4, e2, e3, hspec.2.2.2]
    norm_num [Kp, Ki]

/-- C5 witness: the amended theorem instantiated on the concrete hold
state with setpoint 0.013 and a neutral tick. -/
theorem claim_C5_witness :
    pidTick1.deviceOk = true ∧ pidState1.alt_hold = true ∧
    pidTick1.snap.button.getD 7 false = false ∧
    (loopStep pidState1 pidTick1).state.filtered_alt =
      1/100 * pidTick1.altRead1 + 99/100 * pidState1.filtered_alt ∧
    (loopStep pidState1 pidTick1).state.cmds.throttle =
      max 900 (min 1600 (pyInt (1570 + 50 * (loopStep pidState1 pidTick1).state.eh +
        10 * (loopStep pidState1 pidTick1).state.ei))) := by
  have h := claim_C5 pidState1 pidTick1 rfl rfl rfl
  exact ⟨rfl, rfl, rfl, h.1, h.2.2.2⟩

/-! ### Purity of the channel mapping -/

/-- A snapshot holding the increase-yaw-trim button (5) down. -/
def yawSnap : Snapshot :=
  { axis1 := 0, axis3 := 0, axis4 := 0,
    button := [false, false, false, false, false, true] }

/-- C6 counterexample: with the increase-trim button held and trim 0, the
mapping returns yaw 1510 and mutates the trim to 10; evaluating it again
with the same snapshot (threading the mutated trim, as the global
yaw_trim does) yields yaw 1520 — not an identical frame, and the trim
state was mutated. -/
theorem claim_C6_counterexample :
    (mapChannels yawSnap 0).2 = 10 ∧
    (mapChannels yawSnap 0).1.yaw = 1510 ∧
    (mapChannels yawSnap (mapChannels yawSnap 0).2).1.yaw = 1520 := by
  decide

/-- C6 (amended): the channel frame is a deterministic function of the
snapshot and the incoming trim alone, but the mapping also updates the
trim state (the scale_yaw global).  When neither trim button (4, 5) is
held, the trim resets to 0 and re-evaluating with the same snapshot gives
an identical frame; when the increase-trim button is held and the trim is
below the 90 saturation margin, two successive evaluations with the same
snapshot give different yaw values. -/
theorem claim_C6 :
    (∀ (snap : Snapshot) (t : ℤ),
      snap.button.getD 4 false = false → snap.button.getD 5 false = false →
      (mapChannels snap (mapChannels snap t).2).1 = (mapChannels snap t).1 ∧
      (mapChannels snap t).2 = 0) ∧
    (∀ (snap : Snapshot) (t : ℤ),
      snap.button.getD 5 false = true → t < 90 →
      (mapChannels snap (mapChannels snap t).2).1.yaw ≠ (mapChannels snap t).1.yaw) := by
  constructor
  · intro snap t h4 h5
    unfold mapChannels yawTrimStep
    rw [h4, h5]
    exact ⟨rfl, rfl⟩
  · intro snap t h5 ht
    unfold mapChannels yawTrimStep
    rw [h5]
    show (1500 + min 100 (min 100 (t + 10) + 10) : ℤ) ≠ 1500 + min 100 (t + 10)
    omega

/-- C6 witness: the second part of the amended theorem instantiated on the
concrete snapshot holding button 5 with trim 0. -/
theorem claim_C6_witness :
    yawSnap.button.getD 5 false = true ∧ ((0 : ℤ) < 90) ∧
    (mapChannels yawSnap (mapChannels yawSnap 0).2).1.yaw ≠ (mapChannels yawSnap 0).1.yaw := by
  refine ⟨rfl, by decide, ?_⟩
  exact claim_C6.2 yawSnap 0 rfl (by decide)
